import Mathlib

/-!
Shallow embedding of the Mars Explorer Hub data layer
(`src/data/nasa_client.py`, `src/utils/helpers.py`, `config.py`).

JSON payloads are modelled as typed structures whose `Option` fields stand
for Python `dict.get` with absent keys; HTTP transport is modelled as an
explicit `HttpAttempt` outcome consumed by the gateway, and the
user-facing `st.error` / `st.warning` banners are modelled as distinct
result constructors.  Python numbers are `ℚ`/`ℤ`, Python strings are Lean
`String`s operated on through their character lists (ASCII scope).
-/

namespace Mars

/-! ### Python string primitives used by the client -/

/-- Python `str.isdigit()` (ASCII scope): non-empty and all characters are
decimal digits.  This is the filter on weather payload keys at
`nasa_client.py:76`. -/
def py_isdigit (s : String) : Bool :=
  !s.data.isEmpty && s.data.all Char.isDigit

/-- Python `int(s)` for a string of decimal digits (`nasa_client.py:104`). -/
def py_int_of_digits (s : String) : ℤ :=
  Int.ofNat (s.data.foldl (fun a c => 10 * a + (c.toNat - 48)) 0)

/-- Python `str.lower()` (ASCII scope), used by the rover gate at
`nasa_client.py:135`. -/
def py_lower (s : String) : String :=
  ⟨s.data.map Char.toLower⟩

/-- Python `str.replace('_', ' ')` (`nasa_client.py:243`). -/
def py_replace_underscore (s : String) : String :=
  ⟨s.data.map (fun c => if c = '_' then ' ' else c)⟩

/-- Helper for `py_title`: the boolean records whether the previous
character was cased (a letter, in ASCII scope). -/
def titleMap : Bool → List Char → List Char
  | _, [] => []
  | prevCased, c :: cs =>
    (if c.isAlpha then (if prevCased then c.toLower else c.toUpper) else c)
      :: titleMap c.isAlpha cs

/-- Python `str.title()` (ASCII scope): a letter is uppercased when the
preceding character is not a letter, lowercased otherwise
(`nasa_client.py:243`). -/
def py_title (s : String) : String :=
  ⟨titleMap false s.data⟩

/-- Python `utc_timestamp.split('T')[0] if 'T' in utc_timestamp else
utc_timestamp` (`nasa_client.py:188`). -/
def split_on_T (s : String) : String :=
  if s.data.contains 'T' then ⟨s.data.takeWhile (fun c => c != 'T')⟩ else s

/-! ### API gateway (`NASAClient._make_request`, `nasa_client.py:26-53`) -/

/-- Outcome of the single `session.get` attempt performed by the gateway:
either a parsed JSON body of type `α`, or one of the three exception
classes the gateway catches (`Timeout`, `HTTPError` with a status code,
any other `RequestException`). -/
inductive HttpAttempt (α : Type) where
  | success (body : α)
  | timedOut
  | httpError (status : ℕ)
  | networkFailure
deriving DecidableEq

/-- The distinct user-facing banners emitted by `_make_request`
(`st.error` calls at `nasa_client.py:43-52`). -/
inductive UserNotice where
  | timeoutSlow
  | rateLimited
  | httpStatus (code : ℕ)
  | networkDown
deriving DecidableEq

/-- Result of `_make_request`: the parsed body, or `None` together with
the banner that was shown. -/
inductive GatewayResult (α : Type) where
  | ok (body : α)
  | failed (notice : UserNotice)
deriving DecidableEq

/-- `NASAClient._make_request` (`nasa_client.py:26-53`): one GET attempt,
each exception class mapped to its own banner and a `None` return. -/
def make_request {α : Type} (attempt : HttpAttempt α) : GatewayResult α :=
  match attempt with
  | .success body => .ok body
  | .timedOut => .failed .timeoutSlow
  | .httpError status =>
      if status = 429 then .failed .rateLimited
      else .failed (.httpStatus status)
  | .networkFailure => .failed .networkDown

/-- `_make_request` against a queue of available transport outcomes: the
source performs exactly one `session.get`, so only the first outcome is
consumed; the second component counts the attempts used. -/
def make_request_trace {α : Type} (first : HttpAttempt α)
    (_rest : List (HttpAttempt α)) : GatewayResult α × ℕ :=
  (make_request first, 1)

/-! ### Weather payload model (`NASAClient.get_mars_weather`,
`nasa_client.py:55-117`) -/

/-- The `AT` sub-object of one sol entry of the InSight feed; fields are
read with plain `.get` (absent key gives `None`). -/
structure TempData where
  mn : Option ℚ
  mx : Option ℚ
  av : Option ℚ
deriving DecidableEq

/-- The `PRE` sub-object of one sol entry. -/
structure PressureData where
  av : Option ℚ
deriving DecidableEq

/-- One day-keyed value of the raw weather JSON object.  `AT`/`PRE` are
read with `.get('AT', {})` (absent gives the empty object, whose own
`.get` gives `None`); `Season` with `.get('Season', 'Unknown')`;
`First_UTC` with plain `.get`. -/
structure SolData where
  AT : Option TempData
  PRE : Option PressureData
  Season : Option String
  First_UTC : Option String
deriving DecidableEq

/-- The normalized weather record built at `nasa_client.py:103-111`. -/
structure WeatherRecord where
  sol : ℤ
  min_temp_c : Option ℚ
  max_temp_c : Option ℚ
  avg_temp_c : Option ℚ
  pressure_pa : Option ℚ
  season : String
  earth_date : Option String
deriving DecidableEq

/-- Outcome of `get_mars_weather`: `noPayload` is the silent `None` of
`if not data: return None` (`nasa_client.py:71-72`), `noData` is the
`None` accompanied by the "No weather data available" warning
(`nasa_client.py:78-80`), `ok` carries the sorted record list. -/
inductive WeatherResult where
  | noPayload
  | noData
  | ok (df : List WeatherRecord)
deriving DecidableEq

/-- The record built for one digit key `sol` of the payload
(`nasa_client.py:84-111`). -/
def mkWeatherRecord (k : String) (sd : SolData) : WeatherRecord :=
  { sol := py_int_of_digits k
    min_temp_c := sd.AT.bind TempData.mn
    max_temp_c := sd.AT.bind TempData.mx
    avg_temp_c := sd.AT.bind TempData.av
    pressure_pa := sd.PRE.bind PressureData.av
    season := sd.Season.getD "Unknown"
    earth_date := sd.First_UTC }

/-- Insert a record into a list kept sorted by descending `sol`. -/
def insertDesc (r : WeatherRecord) : List WeatherRecord → List WeatherRecord
  | [] => [r]
  | x :: xs => if x.sol ≤ r.sol then r :: x :: xs else x :: insertDesc r xs

/-- `df.sort_values('sol', ascending=False)` (`nasa_client.py:115`),
modelled as an insertion sort by descending `sol`. -/
def sortBySolDesc (l : List WeatherRecord) : List WeatherRecord :=
  l.foldr insertDesc []

/-- `NASAClient.get_mars_weather` (`nasa_client.py:55-117`), given the
gateway outcome of the single weather request.  The raw payload is the
ordered key/value list of the JSON object. -/
def get_mars_weather (attempt : HttpAttempt (List (String × SolData))) :
    WeatherResult :=
  match make_request attempt with
  | .failed _ => .noPayload
  | .ok data =>
    if data.isEmpty then .noPayload
    else
      let sol_keys := data.filter (fun kv => py_isdigit kv.1)
      if sol_keys.isEmpty then .noData
      else .ok (sortBySolDesc (sol_keys.map (fun kv => mkWeatherRecord kv.1 kv.2)))

/-! ### Camera-name mapping (`NASAClient._format_camera_name`,
`nasa_client.py:206-243`) -/

/-- The fixed instrument-code → label table (`nasa_client.py:217-231`),
kept in source (insertion) order, which is the iteration order of the
Python dict. -/
def camera_map : List (String × String) :=
  [("NAV_LEFT", "Navigation Camera - Left"),
   ("NAV_RIGHT", "Navigation Camera - Right"),
   ("NAV_LEFT_B", "Navigation Camera - Left B"),
   ("NAV_RIGHT_B", "Navigation Camera - Right B"),
   ("FHAZ_LEFT", "Front Hazard Avoidance Camera - Left"),
   ("FHAZ_RIGHT", "Front Hazard Avoidance Camera - Right"),
   ("RHAZ_LEFT", "Rear Hazard Avoidance Camera - Left"),
   ("RHAZ_RIGHT", "Rear Hazard Avoidance Camera - Right"),
   ("MAST_LEFT", "Mast Camera - Left"),
   ("MAST_RIGHT", "Mast Camera - Right"),
   ("MAHLI", "Mars Hand Lens Imager"),
   ("MARDI", "Mars Descent Imager"),
   ("CHEMCAM", "Chemistry and Camera Complex")]

/-- `NASAClient._format_camera_name` (`nasa_client.py:206-243`): exact
table lookup, then the first table entry whose key starts the code
(`instrument.startswith(key)`), then underscore-to-space plus
`str.title()`. -/
def format_camera_name (instrument : String) : String :=
  match camera_map.lookup instrument with
  | some v => v
  | none =>
    match camera_map.find? (fun kv => kv.1.data.isPrefixOf instrument.data) with
    | some kv => kv.2
    | none => py_title (py_replace_underscore instrument)

/-! ### Rover photos (`NASAClient.get_rover_photos`,
`nasa_client.py:119-204`) -/

/-- One entry of the manifest's `sols` list: `sol` is read with `[...]`,
`num_images` with `.get('num_images', 0)`. -/
structure SolInfo where
  sol : ℤ
  num_images : Option ℤ
deriving DecidableEq

/-- The MSL manifest payload; `sols` is read with `.get('sols', [])`. -/
structure Manifest where
  sols : Option (List SolInfo)
deriving DecidableEq

/-- One entry of a per-sol `images` list; every field is read with
`.get` and a default. -/
structure ImgEntry where
  itemName : Option String
  urlList : Option String
  utc : Option String
  instrument : Option String
  sol : Option ℤ
deriving DecidableEq

/-- The per-sol images payload; the code requires the `images` key to be
present (`'images' not in sol_data`). -/
structure SolImagesPayload where
  images : Option (List ImgEntry)
deriving DecidableEq

/-- The formatted photo dictionary built at `nasa_client.py:194-202`. -/
structure PhotoRecord where
  id : String
  img_src : String
  camera_name : String
  camera_abbr : String
  sol : ℤ
  earth_date : String
  rover : String
deriving DecidableEq

/-- Outcome of `get_rover_photos`; every `None` return of the source is a
separate constructor carrying the banner that was shown:
`unsupported` (warning, `nasa_client.py:139`), `manifestError` (error,
line 146), `noManifestSols` (warning, line 152), `noSolWithImages`
(warning, line 163), `solDataError` (error, line 171), `noImages`
(warning, line 177), and `ok` (line 204). -/
inductive PhotosResult where
  | unsupported
  | manifestError
  | noManifestSols
  | noSolWithImages
  | solDataError
  | noImages
  | ok (photos : List PhotoRecord)
deriving DecidableEq

/-- The scan at `nasa_client.py:156-160`: walk the `sols` list from its
last entry backward and take the first whose `num_images` (default 0) is
positive. -/
def latestSolWithImages (sols : List SolInfo) : Option ℤ :=
  (sols.reverse.find? (fun si => decide (0 < si.num_images.getD 0))).map SolInfo.sol

/-- The per-image formatting at `nasa_client.py:182-202`. -/
def formatPhoto (latest_sol : ℤ) (img : ImgEntry) : PhotoRecord :=
  { id := img.itemName.getD "unknown"
    img_src := img.urlList.getD ""
    camera_name := format_camera_name (img.instrument.getD "Unknown")
    camera_abbr := img.instrument.getD "Unknown"
    sol := img.sol.getD latest_sol
    earth_date := split_on_T (img.utc.getD "")
    rover := "Curiosity" }

/-- `NASAClient.get_rover_photos` (`nasa_client.py:119-204`), given the
gateway outcomes of the manifest request and of the per-sol images
request (indexed by the sol that would be requested).  The second
component counts the HTTP requests actually issued. -/
def get_rover_photos (rover_name : String) (num_photos : ℕ)
    (manifestAttempt : HttpAttempt Manifest)
    (solAttempt : ℤ → HttpAttempt SolImagesPayload) : PhotosResult × ℕ :=
  let rn := py_lower rover_name
  if rn ≠ "curiosity" then (.unsupported, 0)
  else
    match make_request manifestAttempt with
    | .failed _ => (.manifestError, 1)
    | .ok manifest =>
      let sols := manifest.sols.getD []
      if sols.isEmpty then (.noManifestSols, 1)
      else
        match latestSolWithImages sols with
        | none => (.noSolWithImages, 1)
        | some latest_sol =>
          match make_request (solAttempt latest_sol) with
          | .failed _ => (.solDataError, 2)
          | .ok sd =>
            match sd.images with
            | none => (.solDataError, 2)
            | some imgs =>
              let taken := imgs.take num_photos
              if taken.isEmpty then (.noImages, 2)
              else (.ok (taken.map (formatPhoto latest_sol)), 2)

/-! ### Unit and format helpers (`src/utils/helpers.py`) -/

/-- `celsius_to_fahrenheit` (`helpers.py:8-20`); `None` propagates. -/
def celsius_to_fahrenheit : Option ℚ → Option ℚ
  | none => none
  | some c => some (c * 9 / 5 + 32)

/-- `fahrenheit_to_celsius` (`helpers.py:23-35`); `None` propagates. -/
def fahrenheit_to_celsius : Option ℚ → Option ℚ
  | none => none
  | some f => some ((f - 32) * 5 / 9)

/-- Round-half-to-even at integer precision, the rounding used by
Python `format(x, '.0f')`-style fixed-point formatting (modelled at
exact rational precision). -/
def roundHalfEven (x : ℚ) : ℤ :=
  let f := Int.floor x
  if x - f < 1 / 2 then f
  else if 1 / 2 < x - f then f + 1
  else if f % 2 = 0 then f else f + 1

/-- Python `f"\x7btemp:.1f\x7d"` at exact rational precision: the value
rounded to tenths, printed with exactly one digit after the point (a
negative value that rounds to zero keeps its minus sign, as Python
prints `-0.0`). -/
def formatFixed1 (q : ℚ) : String :=
  let n := roundHalfEven (10 * q)
  let m := n.natAbs
  (if n < 0 ∨ (n = 0 ∧ q < 0) then "-" else "")
    ++ toString (m / 10) ++ "." ++ toString (m % 10)

/-- Python `f"\x7bpressure:.0f\x7d"` at exact rational precision. -/
def formatFixed0 (q : ℚ) : String :=
  let n := roundHalfEven q
  (if n < 0 ∨ (n = 0 ∧ q < 0) then "-" else "") ++ toString n.natAbs

/-- `format_temperature` (`helpers.py:38-53`).  NOTE: the suffix strings
are exactly the ones in the source file, whose degree sign was corrupted
by a text-encoding slip to the character U+C9F8 (`째`) — not the degree
symbol U+00B0 (`°`). -/
def format_temperature (temp : Option ℚ) (unit : String) : String :=
  match temp with
  | none => "N/A"
  | some t => formatFixed1 t ++ (if unit = "C" then "째C" else "째F")

/-- `format_pressure` (`helpers.py:56-69`). -/
def format_pressure (pressure : Option ℚ) : String :=
  match pressure with
  | none => "N/A"
  | some p => formatFixed0 p ++ " Pa"

/-! ### Helper lemmas about the insertion sort -/

lemma insertDesc_perm (r : WeatherRecord) (l : List WeatherRecord) :
    (insertDesc r l).Perm (r :: l) := by
  induction l with
  | nil => exact List.Perm.refl _
  | cons x xs ih =>
    by_cases h : x.sol ≤ r.sol
    · simp only [insertDesc, if_pos h]
      exact List.Perm.refl _
    · simp only [insertDesc, if_neg h]
      exact (ih.cons x).trans (List.Perm.swap r x xs)

lemma mem_insertDesc {y r : WeatherRecord} {l : List WeatherRecord} :
    y ∈ insertDesc r l ↔ y = r ∨ y ∈ l := by
  rw [(insertDesc_perm r l).mem_iff, List.mem_cons]

lemma insertDesc_pairwise {r : WeatherRecord} {l : List WeatherRecord}
    (h : l.Pairwise (fun a b => b.sol ≤ a.sol)) :
    (insertDesc r l).Pairwise (fun a b => b.sol ≤ a.sol) := by
  induction l with
  | nil => simp [insertDesc]
  | cons x xs ih =>
    rcases List.pairwise_cons.1 h with ⟨hx, hxs⟩
    by_cases hc : x.sol ≤ r.sol
    · simp only [insertDesc, if_pos hc]
      refine List.pairwise_cons.2 ⟨?_, h⟩
      intro y hy
      rcases List.mem_cons.1 hy with rfl | hy
      · exact hc
      · exact le_trans (hx y hy) hc
    · simp only [insertDesc, if_neg hc]
      refine List.pairwise_cons.2 ⟨?_, ih hxs⟩
      intro y hy
      rcases mem_insertDesc.1 hy with rfl | hy
      · exact le_of_not_le hc
      · exact hx y hy

lemma sortBySolDesc_perm (l : List WeatherRecord) :
    (sortBySolDesc l).Perm l := by
  induction l with
  | nil => exact List.Perm.refl _
  | cons x xs ih => exact (insertDesc_perm x _).trans (ih.cons x)

lemma sortBySolDesc_pairwise (l : List WeatherRecord) :
    (sortBySolDesc l).Pairwise (fun a b => b.sol ≤ a.sol) := by
  induction l with
  | nil => simp [sortBySolDesc]
  | cons x xs ih => exact insertDesc_pairwise ih

/-- Inversion for the success branch of the weather normalizer. -/
lemma get_mars_weather_ok {data : List (String × SolData)}
    {df : List WeatherRecord}
    (h : get_mars_weather (.success data) = .ok df) :
    df = sortBySolDesc ((data.filter fun kv => py_isdigit kv.1).map
      fun kv => mkWeatherRecord kv.1 kv.2) := by
  unfold get_mars_weather make_request at h
  by_cases h1 : data.isEmpty
  · simp [h1] at h
  · by_cases h2 : (data.filter fun kv => py_isdigit kv.1).isEmpty
    · simp [h1, h2] at h
    · simp only [h1, h2, if_false, Bool.false_eq_true, if_neg] at h
      simpa using h.symm

/-! ### Claim theorems -/

/-- C1 counterexample: the empty JSON object has zero digit keys, yet the
normalizer returns the silent `None` of the `if not data` guard
(`nasa_client.py:71-72`) — the `noData` signal that carries the
"no weather data" notice (`nasa_client.py:78-80`) is never reached, so
"returns None with a notice when zero such keys exist" fails at the
empty payload. -/
theorem get_mars_weather_c1_cex :
    get_mars_weather (.success ([] : List (String × SolData))) = .noPayload ∧
    ([] : List (String × SolData)).filter (fun kv => py_isdigit kv.1) = [] ∧
    WeatherResult.noPayload ≠ WeatherResult.noData := by
  decide

/-- C1 (amended): for every non-empty raw weather payload, the normalizer
returns one record per digit key ordered descending by `sol`, and signals
"no data" with a notice when zero digit keys exist; non-numeric keys are
ignored.  For the payload with keys `0`, `1`, `sol_keys`,
`validity_checks` it returns exactly the two records for sols 1 and 0,
sol 1 first.  (An entirely empty payload instead takes the silent
missing-payload guard — see the counterexample.) -/
theorem get_mars_weather_c1 :
    (∀ data : List (String × SolData), data ≠ [] →
      ((data.filter fun kv => py_isdigit kv.1) = [] →
          get_mars_weather (.success data) = .noData) ∧
      ((data.filter fun kv => py_isdigit kv.1) ≠ [] →
          ∃ df, get_mars_weather (.success data) = .ok df) ∧
      (∀ df, get_mars_weather (.success data) = .ok df →
          df.length = (data.filter fun kv => py_isdigit kv.1).length ∧
          df.Perm ((data.filter fun kv => py_isdigit kv.1).map
            fun kv => mkWeatherRecord kv.1 kv.2) ∧
          df.Pairwise (fun a b => b.sol ≤ a.sol))) ∧
    (∀ s0 s1 sm sv : SolData,
      get_mars_weather (.success
          [("0", s0), ("1", s1), ("sol_keys", sm), ("validity_checks", sv)])
        = .ok [mkWeatherRecord "1" s1, mkWeatherRecord "0" s0] ∧
      (mkWeatherRecord "1" s1).sol = 1 ∧ (mkWeatherRecord "0" s0).sol = 0) := by
  constructor
  · intro data hne
    have h1 : data.isEmpty = false := by
      cases data with
      | nil => exact absurd rfl hne
      | cons a l => rfl
    refine ⟨?_, ?_, ?_⟩
    · intro hf
      unfold get_mars_weather make_request
      simp [h1, hf]
    · intro hf
      have h2 : (data.filter fun kv => py_isdigit kv.1).isEmpty = false := by
        rcases hh : data.filter fun kv => py_isdigit kv.1 with _ | ⟨a, l⟩
        · exact absurd hh hf
        · rw [hh]; rfl
      refine ⟨sortBySolDesc ((data.filter fun kv => py_isdigit kv.1).map
        fun kv => mkWeatherRecord kv.1 kv.2), ?_⟩
      unfold get_mars_weather make_request
      simp [h1, h2]
    · intro df hdf
      rw [get_mars_weather_ok hdf]
      refine ⟨?_, sortBySolDesc_perm _, sortBySolDesc_pairwise _⟩
      rw [(sortBySolDesc_perm _).length_eq]
      simp
  · intro s0 s1 sm sv
    exact ⟨rfl, rfl, rfl⟩

/-- C1 witness: concrete instances of both amended branches — a payload
whose single key is non-numeric signals `noData`, and a payload with the
digit key `"3"` yields a success result. -/
theorem get_mars_weather_c1_wit :
    get_mars_weather (.success
        [("sol_keys", (⟨none, none, none, none⟩ : SolData))]) = .noData ∧
    ∃ df, get_mars_weather (.success
        [("3", (⟨none, none, none, none⟩ : SolData))]) = .ok df :=
  ⟨(get_mars_weather_c1.1 _ (by decide)).1 (by decide),
   (get_mars_weather_c1.1 _ (by decide)).2.1 (by decide)⟩

/-- C6: weather normalization is a total function of the payload; every
digit-keyed entry contributes a record whose temperature and pressure
attributes are `none` whenever the `AT`/`PRE` sub-objects or their
sub-fields are absent, whose season defaults to `"Unknown"` when absent,
and non-digit (malformed) keys contribute no record at all. -/
theorem get_mars_weather_c6 :
    (∀ (data : List (String × SolData)) (k : String) (sd : SolData),
      (k, sd) ∈ data → py_isdigit k = true →
      ∃ df r, get_mars_weather (.success data) = .ok df ∧ r ∈ df ∧
        r.sol = py_int_of_digits k ∧
        r.min_temp_c = sd.AT.bind TempData.mn ∧
        r.max_temp_c = sd.AT.bind TempData.mx ∧
        r.avg_temp_c = sd.AT.bind TempData.av ∧
        r.pressure_pa = sd.PRE.bind PressureData.av ∧
        (sd.AT = none →
          r.min_temp_c = none ∧ r.max_temp_c = none ∧ r.avg_temp_c = none) ∧
        (sd.PRE = none → r.pressure_pa = none) ∧
        (sd.Season = none → r.season = "Unknown") ∧
        (∀ s, sd.Season = some s → r.season = s) ∧
        r.earth_date = sd.First_UTC) ∧
    (∀ data df, get_mars_weather (.success data) = .ok df →
      df.length = (data.filter fun kv => py_isdigit kv.1).length) := by
  constructor
  · intro data k sd hmem hdig
    have hmf : (k, sd) ∈ data.filter (fun kv => py_isdigit kv.1) :=
      List.mem_filter.2 ⟨hmem, hdig⟩
    have h1 : data.isEmpty = false := by
      cases data with
      | nil => cases hmem
      | cons a l => rfl
    have h2 : (data.filter fun kv => py_isdigit kv.1).isEmpty = false := by
      rcases hh : data.filter fun kv => py_isdigit kv.1 with _ | ⟨a, l⟩
      · rw [hh] at hmf; cases hmf
      · rw [hh]; rfl
    refine ⟨sortBySolDesc ((data.filter fun kv => py_isdigit kv.1).map
        fun kv => mkWeatherRecord kv.1 kv.2),
      mkWeatherRecord k sd, ?_, ?_, rfl, rfl, rfl, rfl, rfl,
      ?_, ?_, ?_, ?_, rfl⟩
    · unfold get_mars_weather make_request
      simp [h1, h2]
    · exact (sortBySolDesc_perm _).mem_iff.2
        (List.mem_map_of_mem (fun kv => mkWeatherRecord kv.1 kv.2) hmf)
    · intro h; simp [mkWeatherRecord, h]
    · intro h; simp [mkWeatherRecord, h]
    · intro h; simp [mkWeatherRecord, h]
    · intro s h; simp [mkWeatherRecord, h]
  · intro data df h
    rw [get_mars_weather_ok h, (sortBySolDesc_perm _).length_eq]
    simp

/-- C6 witness: a single-day payload with all sub-objects missing yields
one record with `none` temperatures and pressure and season
`"Unknown"`. -/
theorem get_mars_weather_c6_wit :
    ∃ df r, get_mars_weather (.success
        [("7", (⟨none, none, none, none⟩ : SolData))]) = .ok df ∧
      r ∈ df ∧ r.sol = py_int_of_digits "7" ∧
      r.min_temp_c = none ∧ r.max_temp_c = none ∧ r.avg_temp_c = none ∧
      r.pressure_pa = none ∧
      ((none : Option TempData) = none →
        r.min_temp_c = none ∧ r.max_temp_c = none ∧ r.avg_temp_c = none) ∧
      ((none : Option PressureData) = none → r.pressure_pa = none) ∧
      ((none : Option String) = none → r.season = "Unknown") ∧
      (∀ s, (none : Option String) = some s → r.season = s) ∧
      r.earth_date = none :=
  get_mars_weather_c6.1 [("7", ⟨none, none, none, none⟩)] "7"
    ⟨none, none, none, none⟩ (by decide) (by decide)

/-- C8: converting Celsius to Fahrenheit and back is the identity under
exact rational arithmetic, both conversions compute the stated affine
formulas, and both map the absent value to the absent value. -/
theorem helpers_conversion_c8 :
    (∀ c : ℚ, fahrenheit_to_celsius (celsius_to_fahrenheit (some c)) = some c) ∧
    celsius_to_fahrenheit none = none ∧
    fahrenheit_to_celsius none = none ∧
    (∀ c : ℚ, celsius_to_fahrenheit (some c) = some (c * 9 / 5 + 32)) ∧
    (∀ f : ℚ, fahrenheit_to_celsius (some f) = some ((f - 32) * 5 / 9)) := by
  refine ⟨fun c => ?_, rfl, rfl, fun c => rfl, fun f => rfl⟩
  simp only [celsius_to_fahrenheit, fahrenheit_to_celsius]
  congr 1
  ring

/-- Helper: `find?` skips a block in which every element fails the
predicate. -/
lemma find?_append_of_none {α : Type} {p : α → Bool} {l1 : List α}
    (h : ∀ x ∈ l1, p x = false) (l2 : List α) :
    (l1 ++ l2).find? p = l2.find? p := by
  rw [List.find?_append, List.find?_eq_none.2 (fun x hx => by simp [h x hx])]
  rfl

/-- C2: the photo-sol scan walks the manifest day list from the most
recent entry backward and selects the first day with a positive image
count; the empty list and the no-qualifying-day cases signal "no data";
and on the list `[(10,0), (11,3), (12,0)]` it selects sol 11. -/
theorem photo_sol_selection_c2 :
    (∀ sols : List SolInfo, (∀ si ∈ sols, si.num_images.getD 0 ≤ 0) →
      latestSolWithImages sols = none) ∧
    (∀ (pre post : List SolInfo) (si : SolInfo),
      0 < si.num_images.getD 0 → (∀ x ∈ post, x.num_images.getD 0 ≤ 0) →
      latestSolWithImages (pre ++ si :: post) = some si.sol) ∧
    (∀ (rover : String) (n : ℕ) (mA : HttpAttempt Manifest)
        (sA : ℤ → HttpAttempt SolImagesPayload) (m : Manifest),
      py_lower rover = "curiosity" → make_request mA = .ok m →
      m.sols.getD [] = [] →
      get_rover_photos rover n mA sA = (.noManifestSols, 1)) ∧
    (∀ (rover : String) (n : ℕ) (mA : HttpAttempt Manifest)
        (sA : ℤ → HttpAttempt SolImagesPayload) (m : Manifest),
      py_lower rover = "curiosity" → make_request mA = .ok m →
      m.sols.getD [] ≠ [] →
      (∀ si ∈ m.sols.getD [], si.num_images.getD 0 ≤ 0) →
      get_rover_photos rover n mA sA = (.noSolWithImages, 1)) ∧
    latestSolWithImages [⟨10, some 0⟩, ⟨11, some 3⟩, ⟨12, some 0⟩] = some 11 := by
  have hscan_none : ∀ sols : List SolInfo,
      (∀ si ∈ sols, si.num_images.getD 0 ≤ 0) → latestSolWithImages sols = none := by
    intro sols h
    unfold latestSolWithImages
    rw [List.find?_eq_none.2]
    · rfl
    · intro x hx
      simp [not_lt.2 (h x (List.mem_reverse.1 hx))]
  refine ⟨hscan_none, ?_, ?_, ?_, by decide⟩
  · intro pre post si hq hpost
    unfold latestSolWithImages
    rw [List.reverse_append, List.reverse_cons, List.append_assoc,
      find?_append_of_none
        (fun x hx => by simp [not_lt.2 (hpost x (List.mem_reverse.1 hx))]) _,
      List.singleton_append,
      List.find?_cons_of_pos _ (by simpa using hq)]
    rfl
  · intro rover n mA sA m hlow hm hsols
    unfold get_rover_photos
    have he : (m.sols.getD []).isEmpty = true := by rw [hsols]; rfl
    simp [hlow, hm, he]
  · intro rover n mA sA m hlow hm hne hall
    have he : (m.sols.getD []).isEmpty = false := by
      rcases hh : m.sols.getD [] with _ | ⟨a, l⟩
      · exact absurd hh hne
      · rfl
    unfold get_rover_photos
    simp [hlow, hm, he, hscan_none _ hall]

/-- C2 witness: the scan applied to the manifest list
`[(10,0), (11,3), (12,0)]` through the general backward-scan clause. -/
theorem photo_sol_selection_c2_wit :
    latestSolWithImages ([⟨10, some 0⟩] ++ (⟨11, some 3⟩ : SolInfo) :: [⟨12, some 0⟩])
      = some (11 : ℤ) :=
  photo_sol_selection_c2.2.1 [⟨10, some 0⟩] [⟨12, some 0⟩] ⟨11, some 3⟩
    (by decide) (by decide)

/-- C3: the camera-name mapper is total; it resolves by exact table
match first, then by the first table entry (in table order) whose key is
a textual starting segment of the code, then by the
underscore-to-space-and-title-case fallback; and it maps `MAST_LEFT`,
`MAST_LEFT_B` and `XYZ_FOO` as the claim states. -/
theorem format_camera_name_c3 :
    (∀ (inst v : String), camera_map.lookup inst = some v →
      format_camera_name inst = v) ∧
    (∀ inst : String, camera_map.lookup inst = none →
      ∀ (pre post : List (String × String)) (si : String × String),
        camera_map = pre ++ si :: post →
        si.1.data.isPrefixOf inst.data = true →
        (∀ kv ∈ pre, kv.1.data.isPrefixOf inst.data = false) →
        format_camera_name inst = si.2) ∧
    (∀ inst : String, camera_map.lookup inst = none →
      (∀ kv ∈ camera_map, kv.1.data.isPrefixOf inst.data = false) →
      format_camera_name inst = py_title (py_replace_underscore inst)) ∧
    format_camera_name "MAST_LEFT" = "Mast Camera - Left" ∧
    format_camera_name "MAST_LEFT_B" = "Mast Camera - Left" ∧
    format_camera_name "XYZ_FOO" = "Xyz Foo" := by
  refine ⟨?_, ?_, ?_, by decide, by decide, by decide⟩
  · intro inst v h
    unfold format_camera_name
    rw [h]
  · intro inst hnone pre post si hmap hsi hpre
    unfold format_camera_name
    rw [hnone]
    have hfind : camera_map.find? (fun kv => kv.1.data.isPrefixOf inst.data)
        = some si := by
      rw [hmap, find?_append_of_none hpre]
      exact @List.find?_cons_of_pos _ (fun kv => kv.1.data.isPrefixOf inst.data)
        si post hsi
    rw [hfind]
  · intro inst hnone hall
    unfold format_camera_name
    rw [hnone, List.find?_eq_none.2 (fun kv hkv => by simp [hall kv hkv])]

/-- C3 witness: the exact-match clause at `NAV_LEFT` and the
first-matching-key clause at `MAST_RIGHT_X` (all earlier table keys fail
to start the code). -/
theorem format_camera_name_c3_wit :
    format_camera_name "NAV_LEFT" = "Navigation Camera - Left" ∧
    format_camera_name "MAST_RIGHT_X" = "Mast Camera - Right" :=
  ⟨format_camera_name_c3.1 "NAV_LEFT" "Navigation Camera - Left" (by decide),
   format_camera_name_c3.2.1 "MAST_RIGHT_X" (by decide)
     [("NAV_LEFT", "Navigation Camera - Left"),
      ("NAV_RIGHT", "Navigation Camera - Right"),
      ("NAV_LEFT_B", "Navigation Camera - Left B"),
      ("NAV_RIGHT_B", "Navigation Camera - Right B"),
      ("FHAZ_LEFT", "Front Hazard Avoidance Camera - Left"),
      ("FHAZ_RIGHT", "Front Hazard Avoidance Camera - Right"),
      ("RHAZ_LEFT", "Rear Hazard Avoidance Camera - Left"),
      ("RHAZ_RIGHT", "Rear Hazard Avoidance Camera - Right"),
      ("MAST_LEFT", "Mast Camera - Left")]
     [("MAHLI", "Mars Hand Lens Imager"),
      ("MARDI", "Mars Descent Imager"),
      ("CHEMCAM", "Chemistry and Camera Complex")]
     ("MAST_RIGHT", "Mast Camera - Right")
     (by decide) (by decide) (by decide)⟩

/-- C4: the gateway maps its four failure kinds (timeout, HTTP 429, any
other HTTP status carrying the code, network-level failure) to four
pairwise-distinct user-facing conditions with a `None` result, returns
the parsed body on success, and consumes exactly one transport attempt
per logical fetch (no retry: the remaining outcome queue is never
consulted). -/
theorem make_request_c4 :
    (∀ (α : Type) (b : α), make_request (HttpAttempt.success b) = .ok b) ∧
    (∀ α : Type, make_request (HttpAttempt.timedOut : HttpAttempt α)
      = .failed .timeoutSlow) ∧
    (∀ α : Type, make_request (HttpAttempt.httpError 429 : HttpAttempt α)
      = .failed .rateLimited) ∧
    (∀ (α : Type) (s : ℕ), s ≠ 429 →
      make_request (HttpAttempt.httpError s : HttpAttempt α)
        = .failed (.httpStatus s)) ∧
    (∀ α : Type, make_request (HttpAttempt.networkFailure : HttpAttempt α)
      = .failed .networkDown) ∧
    (∀ s : ℕ, [UserNotice.timeoutSlow, UserNotice.rateLimited,
      UserNotice.httpStatus s, UserNotice.networkDown].Pairwise (· ≠ ·)) ∧
    (∀ (α : Type) (first : HttpAttempt α) (r1 r2 : List (HttpAttempt α)),
      make_request_trace first r1 = make_request_trace first r2 ∧
      (make_request_trace first r1).2 = 1) := by
  refine ⟨fun α b => rfl, fun α => rfl, fun α => rfl, ?_, fun α => rfl,
    ?_, fun α first r1 r2 => ⟨rfl, rfl⟩⟩
  · intro α s hs
    simp [make_request, hs]
  · intro s
    simp

/-- C4 witness: a simulated HTTP 500 surfaces the generic HTTP-error
condition carrying the status code. -/
theorem make_request_c4_wit :
    make_request (HttpAttempt.httpError 500 : HttpAttempt Manifest)
      = .failed (.httpStatus 500) :=
  make_request_c4.2.2.2.1 Manifest 500 (by decide)

/-- Helper: if `'T'` occurs in the list, `dropWhile` up to the first
`'T'` leaves a list headed by `'T'`. -/
lemma dropWhile_head_T {l : List Char} (h : 'T' ∈ l) :
    ∃ cs, l.dropWhile (fun c => c != 'T') = 'T' :: cs := by
  induction l with
  | nil => cases h
  | cons c cs ih =>
    by_cases hc : c = 'T'
    · subst hc
      exact ⟨cs, by simp [List.dropWhile_cons]⟩
    · have hmem : 'T' ∈ cs := by
        rcases List.mem_cons.1 h with h1 | h1
        · exact absurd h1.symm hc
        · exact h1
      rcases ih hmem with ⟨ds, hds⟩
      exact ⟨ds, by simp [List.dropWhile_cons, hc, hds]⟩

/-- Helper: `split_on_T` returns the portion of the string before the
first `'T'`, or the whole string when `'T'` does not occur. -/
lemma split_on_T_spec (u : String) :
    ∃ rest : List Char,
      u.data = (split_on_T u).data ++ rest ∧
      'T' ∉ (split_on_T u).data ∧
      (rest = [] → split_on_T u = u) ∧
      (∀ c cs, rest = c :: cs → c = 'T') := by
  by_cases hT : u.data.contains 'T' = true
  · have hmem : 'T' ∈ u.data := by simpa using hT
    refine ⟨u.data.dropWhile (fun c => c != 'T'), ?_, ?_, ?_, ?_⟩
    · simp only [split_on_T, if_pos hT]
      exact (List.takeWhile_append_dropWhile _ _).symm
    · simp only [split_on_T, if_pos hT]
      intro hmemT
      have := List.mem_takeWhile_imp hmemT
      simp at this
    · intro hrest
      rcases dropWhile_head_T hmem with ⟨ds, hds⟩
      rw [hds] at hrest
      cases hrest
    · intro c cs hcc
      rcases dropWhile_head_T hmem with ⟨ds, hds⟩
      rw [hds] at hcc
      exact (List.cons.injEq _ _ _ _ ▸ hcc).1.symm
  · refine ⟨[], ?_, ?_, fun _ => ?_, ?_⟩
    · simp only [split_on_T, if_neg hT, List.append_nil]
    · simp only [split_on_T, if_neg hT]
      simpa using hT
    · simp only [split_on_T, if_neg hT]
    · intro c cs hcc
      cases hcc

/-- C7 counterexample: for the per-day payload whose `images` list is
empty and requested count 5, the code signals "no images" rather than
returning the success result holding the (empty) length-`min(5,0)`
prefix, so the unconditional "returns the strict prefix" fails. -/
theorem photos_truncation_c7_cex :
    get_rover_photos "curiosity" 5 (.success ⟨some [⟨11, some 3⟩]⟩)
      (fun _ => .success ⟨some []⟩) = (.noImages, 2) ∧
    PhotosResult.noImages
      ≠ .ok ((([] : List ImgEntry).take 5).map (formatPhoto 11)) := by
  decide

/-- C7 (amended): whenever the gate, manifest and per-day fetches
succeed and the truncated list is non-empty, the result is exactly the
length-`min(N, len)` upstream-order prefix, formatted; when the
truncation is empty the code signals "no data" instead; each record's
`earth_date` is the portion of the timestamp before the first `'T'`, or
the whole timestamp when `'T'` is absent. -/
theorem photos_truncation_c7 :
    (∀ (rover : String) (n : ℕ) (mA : HttpAttempt Manifest)
        (sA : ℤ → HttpAttempt SolImagesPayload) (m : Manifest) (s : ℤ)
        (sd : SolImagesPayload) (imgs : List ImgEntry),
      py_lower rover = "curiosity" →
      make_request mA = .ok m →
      latestSolWithImages (m.sols.getD []) = some s →
      make_request (sA s) = .ok sd →
      sd.images = some imgs →
      imgs.take n ≠ [] →
      get_rover_photos rover n mA sA
        = (.ok ((imgs.take n).map (formatPhoto s)), 2)) ∧
    (∀ (rover : String) (n : ℕ) (mA : HttpAttempt Manifest)
        (sA : ℤ → HttpAttempt SolImagesPayload) (m : Manifest) (s : ℤ)
        (sd : SolImagesPayload) (imgs : List ImgEntry),
      py_lower rover = "curiosity" →
      make_request mA = .ok m →
      latestSolWithImages (m.sols.getD []) = some s →
      make_request (sA s) = .ok sd →
      sd.images = some imgs →
      imgs.take n = [] →
      get_rover_photos rover n mA sA = (.noImages, 2)) ∧
    (∀ (n : ℕ) (imgs : List ImgEntry),
      (imgs.take n).length = min n imgs.length) ∧
    (∀ (s : ℤ) (img : ImgEntry),
      (formatPhoto s img).earth_date = split_on_T (img.utc.getD "")) ∧
    (∀ u : String, ∃ rest : List Char,
      u.data = (split_on_T u).data ++ rest ∧
      'T' ∉ (split_on_T u).data ∧
      (rest = [] → split_on_T u = u) ∧
      (∀ c cs, rest = c :: cs → c = 'T')) := by
  have hsols_ne : ∀ (m : Manifest) (s : ℤ),
      latestSolWithImages (m.sols.getD []) = some s →
      (m.sols.getD []).isEmpty = false := by
    intro m s hsel
    rcases hh : m.sols.getD [] with _ | ⟨a, l⟩
    · rw [hh] at hsel
      simp [latestSolWithImages] at hsel
    · rfl
  refine ⟨?_, ?_, ?_, fun s img => rfl, split_on_T_spec⟩
  · intro rover n mA sA m s sd imgs hlow hm hsel hsd himgs htake
    have htake' : (imgs.take n).isEmpty = false := by
      rcases hh : imgs.take n with _ | ⟨a, l⟩
      · exact absurd hh htake
      · rfl
    unfold get_rover_photos
    simp [hlow, hm, hsols_ne m s hsel, hsel, hsd, himgs, htake']
  · intro rover n mA sA m s sd imgs hlow hm hsel hsd himgs htake
    have htake' : (imgs.take n).isEmpty = true := by rw [htake]; rfl
    unfold get_rover_photos
    simp [hlow, hm, hsols_ne m s hsel, hsel, hsd, himgs, htake']
  · intro n imgs
    simp [List.length_take]

/-- C7 witness: a full successful run through the amended prefix clause
at a concrete manifest and one-image payload. -/
theorem photos_truncation_c7_wit :
    get_rover_photos "curiosity" 5
      (.success ⟨some [⟨10, some 0⟩, ⟨11, some 3⟩, ⟨12, some 0⟩]⟩)
      (fun _ => .success ⟨some [⟨some "IMG1", some "http://x/1.jpg",
        some "2024-01-01T12:00:00Z", some "MAST_LEFT", some 11⟩]⟩)
      = (.ok ((([⟨some "IMG1", some "http://x/1.jpg",
          some "2024-01-01T12:00:00Z", some "MAST_LEFT", some 11⟩]
            : List ImgEntry).take 5).map (formatPhoto 11)), 2) :=
  photos_truncation_c7.1 "curiosity" 5
    (.success ⟨some [⟨10, some 0⟩, ⟨11, some 3⟩, ⟨12, some 0⟩]⟩)
    (fun _ => .success ⟨some [⟨some "IMG1", some "http://x/1.jpg",
      some "2024-01-01T12:00:00Z", some "MAST_LEFT", some 11⟩]⟩)
    ⟨some [⟨10, some 0⟩, ⟨11, some 3⟩, ⟨12, some 0⟩]⟩ 11
    ⟨some [⟨some "IMG1", some "http://x/1.jpg",
      some "2024-01-01T12:00:00Z", some "MAST_LEFT", some 11⟩]⟩
    [⟨some "IMG1", some "http://x/1.jpg",
      some "2024-01-01T12:00:00Z", some "MAST_LEFT", some 11⟩]
    (by decide) rfl (by decide) rfl rfl (by decide)

/-- C5 counterexample: `"Curiosity"` is not equal to the supported value
`"curiosity"`, yet the gate lets it through (the lowercasing at
`nasa_client.py:135` happens first) and the manifest request is issued
(request count 1, result is the manifest-error condition, not the
unsupported-rover condition). -/
theorem rover_gate_c5_cex :
    ("Curiosity" : String) ≠ "curiosity" ∧
    get_rover_photos "Curiosity" 5 HttpAttempt.networkFailure
      (fun _ => HttpAttempt.networkFailure) = (.manifestError, 1) ∧
    (PhotosResult.manifestError, (1 : ℕ)) ≠ (PhotosResult.unsupported, 0) := by
  decide

/-- C5 (amended): for every rover name whose lowercasing differs from
`"curiosity"`, `get_rover_photos` returns the unsupported-rover condition
and performs zero network requests, for every transport behaviour. -/
theorem rover_gate_c5 :
    ∀ (rover : String) (n : ℕ) (mA : HttpAttempt Manifest)
      (sA : ℤ → HttpAttempt SolImagesPayload),
      py_lower rover ≠ "curiosity" →
      get_rover_photos rover n mA sA = (.unsupported, 0) := by
  intro rover n mA sA h
  unfold get_rover_photos
  rw [if_pos h]

/-- C5 witness: the gate rejects `"perseverance"` with no request
issued. -/
theorem rover_gate_c5_wit :
    get_rover_photos "perseverance" 5 HttpAttempt.networkFailure
      (fun _ => HttpAttempt.networkFailure) = (.unsupported, 0) :=
  rover_gate_c5 "perseverance" 5 HttpAttempt.networkFailure
    (fun _ => HttpAttempt.networkFailure) (by decide)

/-- Helper: once the lowercased rover name equals the supported value,
no branch of `get_rover_photos` yields the unsupported condition. -/
lemma get_rover_photos_not_unsupported
    {rover : String} {n : ℕ} {mA : HttpAttempt Manifest}
    {sA : ℤ → HttpAttempt SolImagesPayload}
    (h : py_lower rover = "curiosity") :
    (get_rover_photos rover n mA sA).1 ≠ PhotosResult.unsupported := by
  unfold get_rover_photos
  rw [if_neg (by simp [h])]
  cases make_request mA with
  | failed f => simp
  | ok m =>
    dsimp only
    by_cases hs : (m.sols.getD []).isEmpty
    · simp [hs]
    · simp only [hs, Bool.false_eq_true, if_false]
      cases latestSolWithImages (m.sols.getD []) with
      | none => simp
      | some s =>
        dsimp only
        cases make_request (sA s) with
        | failed f => simp
        | ok sd =>
          dsimp only
          cases sd.images with
          | none => simp
          | some imgs =>
            dsimp only
            by_cases ht : (imgs.take n).isEmpty
            · simp [ht]
            · simp [ht]

/-- C10: the rover gate is case-insensitive — any name that lowercases
to `"curiosity"` passes the gate (never yields the unsupported
condition, and behaves exactly as the canonical name does), even though
such names, e.g. `"Curiosity"` and `"CURIOSITY"`, are not equal to the
supported value. -/
theorem rover_gate_case_insensitive_c10 :
    (∀ (rover : String) (n : ℕ) (mA : HttpAttempt Manifest)
        (sA : ℤ → HttpAttempt SolImagesPayload),
      py_lower rover = "curiosity" →
      (get_rover_photos rover n mA sA).1 ≠ PhotosResult.unsupported ∧
      get_rover_photos rover n mA sA = get_rover_photos "curiosity" n mA sA) ∧
    py_lower "Curiosity" = "curiosity" ∧
    py_lower "CURIOSITY" = "curiosity" ∧
    ("Curiosity" : String) ≠ "curiosity" ∧
    ("CURIOSITY" : String) ≠ "curiosity" := by
  refine ⟨?_, by decide, by decide, by decide, by decide⟩
  intro rover n mA sA h
  refine ⟨get_rover_photos_not_unsupported h, ?_⟩
  have hc : py_lower "curiosity" = "curiosity" := by decide
  simp only [get_rover_photos, h, hc]

/-- C10 witness: `"CURIOSITY"` passes the gate and behaves as the
canonical name under a failing transport. -/
theorem rover_gate_case_insensitive_c10_wit :
    (get_rover_photos "CURIOSITY" 5 HttpAttempt.networkFailure
      (fun _ => HttpAttempt.networkFailure)).1 ≠ PhotosResult.unsupported ∧
    get_rover_photos "CURIOSITY" 5 HttpAttempt.networkFailure
        (fun _ => HttpAttempt.networkFailure)
      = get_rover_photos "curiosity" 5 HttpAttempt.networkFailure
        (fun _ => HttpAttempt.networkFailure) :=
  rover_gate_case_insensitive_c10.1 "CURIOSITY" 5 HttpAttempt.networkFailure
    (fun _ => HttpAttempt.networkFailure) (by decide)

/-- Helper: round-half-to-even lands within half a unit of its
argument. -/
lemma roundHalfEven_close (x : ℚ) : |x - (roundHalfEven x : ℚ)| ≤ 1 / 2 := by
  have h0 : ((Int.floor x : ℤ) : ℚ) ≤ x := Int.floor_le x
  have h1 : x < ((Int.floor x : ℤ) : ℚ) + 1 := Int.lt_floor_add_one x
  simp only [roundHalfEven]
  by_cases hlt : x - ((Int.floor x : ℤ) : ℚ) < 1 / 2
  · rw [if_pos hlt, abs_le]
    constructor <;> linarith
  · rw [if_neg hlt]
    by_cases hgt : 1 / 2 < x - ((Int.floor x : ℤ) : ℚ)
    · rw [if_pos hgt]
      push_cast
      rw [abs_le]
      constructor <;> linarith
    · rw [if_neg hgt]
      by_cases hpar : (Int.floor x) % 2 = 0
      · rw [if_pos hpar, abs_le]
        constructor <;> linarith [not_lt.1 hgt, not_lt.1 hlt]
      · rw [if_neg hpar]
        push_cast
        rw [abs_le]
        constructor <;> linarith [not_lt.1 hgt, not_lt.1 hlt]

/-- C9: the absent value yields the literal `"N/A"` sentinel for every
unit; a present temperature is printed at one-decimal fixed precision
(digits carrying the half-even rounding of ten times the value, within
half a tenth) and a present pressure as the similarly rounded integer
with the `" Pa"` label.  BUT the suffix the code appends is the mojibake
character U+C9F8 (`째`) followed by the unit letter — a text-encoding
corruption of the intended degree symbol `°` (U+00B0), which never
occurs in the output: the claim's "degree symbol" is the evident intent
and the source a slip. -/
theorem format_display_c9 :
    (∀ unit : String, format_temperature none unit = "N/A") ∧
    format_pressure none = "N/A" ∧
    (∀ (q : ℚ) (unit : String),
      format_temperature (some q) unit
        = formatFixed1 q ++ (if unit = "C" then "째C" else "째F")) ∧
    (∀ q : ℚ, format_pressure (some q) = formatFixed0 q ++ " Pa") ∧
    (∀ q : ℚ, ∃ i d : ℕ, d < 10 ∧
      (10 * i + d : ℤ) = (roundHalfEven (10 * q)).natAbs ∧
      (formatFixed1 q = toString i ++ "." ++ toString d ∨
       formatFixed1 q = "-" ++ (toString i ++ "." ++ toString d))) ∧
    (∀ q : ℚ, |10 * q - (roundHalfEven (10 * q) : ℚ)| ≤ 1 / 2) ∧
    (∀ q : ℚ, |q - (roundHalfEven q : ℚ)| ≤ 1 / 2) ∧
    format_temperature (some 0) "C" = "0.0째C" ∧
    '°' ∉ (format_temperature (some 0) "C").data ∧
    '째' ∈ (format_temperature (some 0) "C").data := by
  have heval : format_temperature (some 0) "C" = "0.0째C" := by
    simp [format_temperature, formatFixed1, roundHalfEven]
    decide
  refine ⟨fun unit => rfl, rfl, fun q unit => rfl, fun q => rfl, ?_,
    fun q => roundHalfEven_close (10 * q), fun q => roundHalfEven_close q,
    heval, by rw [heval]; decide, by rw [heval]; decide⟩
  intro q
  refine ⟨(roundHalfEven (10 * q)).natAbs / 10,
    (roundHalfEven (10 * q)).natAbs % 10,
    Nat.mod_lt _ (by norm_num), ?_, ?_⟩
  · exact_mod_cast Nat.div_add_mod (roundHalfEven (10 * q)).natAbs 10
  · by_cases hc : (roundHalfEven (10 * q) < 0 ∨
        (roundHalfEven (10 * q) = 0 ∧ q < 0))
    · right
      simp only [formatFixed1, if_pos hc]
      simp [String.append_assoc]
    · left
      simp only [formatFixed1, if_neg hc]
      rw [String.empty_append]

end Mars
